import Mathlib

/-!
Verification of the phone-book management CLI (Rust) against its
natural-language specification.

The definitions below are a shallow embedding of the repository's source:

* `Contact`, `Contact.new`, `standardize_phone_number` embed
  `src/phone_book/contact.rs` (the flat `src/contact.rs` version of
  `standardize_phone_number` is character-for-character identical).
* `PhoneBook`, `create_contact_stream`, `add_contact`, `start_step` embed
  `src/phone_book/phone_book.rs`.
* `delete_contact`, `update_contact`, `search_contact`,
  `load_contacts_from_csv`, `list_contacts_in_order` embed
  `src/phone_book/operations.rs`.

Rust strings are modelled as Lean `String`; byte slicing in
`standardize_phone_number` is modelled on the character list, which is
justified because the sliced string consists of ASCII digits only (proved
as part of claim C10).  `str::trim` is modelled with the exact Unicode
White_Space code-point set Rust uses; `str::to_lowercase` /
`str::to_uppercase` are modelled on the ASCII range (the repository's
commands and messages are ASCII).
-/

namespace PhoneBookSpec

/-- The Unicode White_Space property, as used by Rust `char::is_whitespace`
(and hence `str::trim`). -/
def rust_is_whitespace (c : Char) : Bool :=
  c.val = 0x9 || c.val = 0xA || c.val = 0xB || c.val = 0xC || c.val = 0xD ||
  c.val = 0x20 || c.val = 0x85 || c.val = 0xA0 || c.val = 0x1680 ||
  (0x2000 ≤ c.val && c.val ≤ 0x200A) ||
  c.val = 0x2028 || c.val = 0x2029 || c.val = 0x202F || c.val = 0x205F ||
  c.val = 0x3000

/-- Rust `str::trim`: drop whitespace from both ends. -/
def trim (s : String) : String :=
  String.mk (((s.data.dropWhile rust_is_whitespace).reverse.dropWhile
    rust_is_whitespace).reverse)

/-- Rust `str::to_lowercase`, restricted to the ASCII range. -/
def rust_char_to_lower (c : Char) : Char :=
  if 'A' ≤ c ∧ c ≤ 'Z' then Char.ofNat (c.toNat + 32) else c

/-- Rust `str::to_uppercase`, restricted to the ASCII range. -/
def rust_char_to_upper (c : Char) : Char :=
  if 'a' ≤ c ∧ c ≤ 'z' then Char.ofNat (c.toNat - 32) else c

def to_lowercase (s : String) : String := String.mk (s.data.map rust_char_to_lower)

def to_uppercase (s : String) : String := String.mk (s.data.map rust_char_to_upper)

/-- Whether the character list `needle` occurs at the start of `hay`. -/
def starts_with_chars : List Char → List Char → Bool
  | [], _ => true
  | _ :: _, [] => false
  | a :: na, b :: hb => a == b && starts_with_chars na hb

/-- Whether the character list `needle` occurs contiguously inside `hay`;
first argument is the haystack. -/
def contains_chars : List Char → List Char → Bool
  | hay, needle =>
    starts_with_chars needle hay ||
      match hay with
      | [] => false
      | _ :: t => contains_chars t needle

/-- Rust `str::contains` with a `&str` pattern: contiguous substring test. -/
def str_contains (hay needle : String) : Bool := contains_chars hay.data needle.data

/-- Rust `usize::from_str` on an already-trimmed string: an optional leading
`+` followed by one or more ASCII digits, rejecting values that do not fit
in 64 bits. `none` models `Err`. -/
def parse_digits (cs : List Char) : Option Nat :=
  if cs = [] then none
  else if cs.all Char.isDigit then
    some (cs.foldl (fun acc c => acc * 10 + (c.toNat - 48)) 0)
  else none

def parse_usize (s : String) : Option Nat :=
  let body :=
    match s.data with
    | '+' :: rest => parse_digits rest
    | cs => parse_digits cs
  match body with
  | some n => if n < 2 ^ 64 then some n else none
  | none => none

/-! ## Contact model (`src/phone_book/contact.rs`) -/

/-- The `Contact` struct.  The struct declaration in
`src/phone_book/contact.rs` names the last field `phone_number`;
`src/phone_book/operations.rs` refers to the same field as `phone`
(the repository mixes schema generations).  We keep the declared name. -/
structure Contact where
  first_name : String
  last_name : String
  email : String
  address : String
  phone_number : String
deriving DecidableEq, Repr

/-- `Contact::default()`: all fields empty. -/
def Contact.default : Contact := ⟨"", "", "", "", ""⟩

/-- The digit-extraction step of `standardize_phone_number`:
`phone_number.chars().filter(|c| c.is_digit(10))`.  Rust `is_digit(10)`
holds exactly for the ASCII characters `'0'..='9'`, which is what
`Char.isDigit` decides. -/
def digitsOf (s : String) : List Char := s.data.filter Char.isDigit

/-- The `format!("({}) {}-{}", &digits[0..=2], &digits[3..=5], &digits[6..=9])`
expression of `standardize_phone_number`.  The byte ranges `0..=2`,
`3..=5`, `6..=9` are `take 3`, `(drop 3).take 3`, `(drop 6).take 4` on the
character list — legitimate because the digit string is pure ASCII (one
byte per character), proved in claim C10. -/
def format_digits (digits : List Char) : String :=
  String.mk ('(' :: digits.take 3 ++ ')' :: ' ' :: (digits.drop 3).take 3 ++
    '-' :: (digits.drop 6).take 4)

/-- `Contact::standardize_phone_number`: keep only decimal digits; when
exactly 10 remain, format them as `(AAA) BBB-CCCC`; otherwise return the
input unchanged. -/
def standardize_phone_number (phone_number : String) : String :=
  let digits := digitsOf phone_number
  if digits.length = 10 then format_digits digits
  else phone_number

/-- `Contact::new`: store the fields, standardizing the phone number. -/
def Contact.new (first_name last_name email address phone_number : String) :
    Contact :=
  { first_name, last_name, email, address,
    phone_number := standardize_phone_number phone_number }

/-! ## Phone book state (`src/phone_book/phone_book.rs`) -/

/-- The `PhoneBook` struct: the in-memory contact vector plus the
transient status message. -/
structure PhoneBook where
  contacts : List Contact
  msg : String
deriving DecidableEq, Repr

/-- `PhoneBook::default()`: empty contact list, empty message. -/
def PhoneBook.default : PhoneBook := ⟨[], ""⟩

/-- `PhoneBook::add_contact` (the `src/phone_book/phone_book.rs` version):
push the contact onto the vector. -/
def add_contact (pb : PhoneBook) (contact : Contact) : PhoneBook :=
  { pb with contacts := pb.contacts ++ [contact] }

/-- `PhoneBook::get_input`: read one line (at end of input, Rust
`read_line` returns `Ok(0)` and the buffer stays empty) and trim it.
Returns the trimmed line together with the remaining input stream. -/
def next_input : List String → String × List String
  | [] => ("", [])
  | line :: rest => (trim line, rest)

/-- `PhoneBook::create_contact` (`src/phone_book/phone_book.rs`), reading
its prompts from an input stream: first name (required), last name, phone
number (required), email, address.  An empty required field aborts with a
cancellation message and consumes no further input; otherwise the new
contact is built by `Contact::new` and appended by `add_contact`. -/
def create_contact_stream (pb : PhoneBook) (inputs : List String) :
    PhoneBook × List String :=
  let first_name := (next_input inputs).1
  let in1 := (next_input inputs).2
  if first_name = "" then
    ({ pb with msg := "First name is required. Contact creation cancelled." }, in1)
  else
    let last_name := (next_input in1).1
    let in2 := (next_input in1).2
    let phone_number := (next_input in2).1
    let in3 := (next_input in2).2
    if phone_number = "" then
      ({ pb with msg := "Phone number is required. Contact creation cancelled." }, in3)
    else
      let email := (next_input in3).1
      let in4 := (next_input in3).2
      let address := (next_input in4).1
      let in5 := (next_input in4).2
      (add_contact { pb with msg := "Contact created successfully!" }
        (Contact.new first_name last_name email address phone_number), in5)

/-- Result of one iteration of the `PhoneBook::start` loop: either the loop
continues with a new state and remaining input, or the `break` on a
confirmed `"E"` command exits it. -/
inductive StepResult where
  | next (pb : PhoneBook) (rest : List String)
  | exited (pb : PhoneBook) (rest : List String)
deriving DecidableEq, Repr

/-- One iteration of the command loop in `PhoneBook::start`
(`src/phone_book/phone_book.rs`): read a command, uppercase it, record it
in `msg`, and dispatch.  In this version of `start` only `"C"` and `"E"`
are wired to operations; `"Q" "F" "U" "D" "L" "A" "Z"` are empty match
arms, and anything else sets an invalid-operation message.  The `"E"` arm
prints an exit line and `break`s immediately — no confirmation is read. -/
def start_step (pb : PhoneBook) (inputs : List String) : StepResult :=
  let operation := to_uppercase (next_input inputs).1
  let rest := (next_input inputs).2
  let pb1 : PhoneBook := { pb with msg := "Last command: " ++ operation }
  if operation = "C" then
    StepResult.next (create_contact_stream pb1 rest).1 (create_contact_stream pb1 rest).2
  else if operation = "Q" then StepResult.next pb1 rest
  else if operation = "F" then StepResult.next pb1 rest
  else if operation = "U" then StepResult.next pb1 rest
  else if operation = "D" then StepResult.next pb1 rest
  else if operation = "E" then StepResult.exited pb1 rest
  else if operation = "L" then StepResult.next pb1 rest
  else if operation = "A" then StepResult.next pb1 rest
  else if operation = "Z" then StepResult.next pb1 rest
  else StepResult.next { pb1 with msg := "Invalid operation: " ++ operation } rest

/-! ## Operations (`src/phone_book/operations.rs`) -/

/-- `PhoneBook::delete_contact`: prompt for an index; a malformed or
out-of-range index (valid range `1..=len`) reports `"Invalid contact
index!"` and changes nothing; otherwise the target is shown and removed
only when the confirmation answer is exactly `"y"`.  The returned string
is the feedback line printed by the operation. -/
def delete_contact (pb : PhoneBook) (index_input confirm_input : String) :
    PhoneBook × String :=
  match parse_usize (trim index_input) with
  | none => (pb, "Invalid contact index!")
  | some index =>
    if index < 1 ∨ index > pb.contacts.length then
      (pb, "Invalid contact index!")
    else if trim confirm_input = "y" then
      ({ pb with contacts := pb.contacts.eraseIdx (index - 1) },
        "Contact at index " ++ toString index ++ " deleted successfully.")
    else
      (pb, "Contact deletion cancelled.")

/-- `PhoneBook::update_contact`: prompt for an index; a malformed or
out-of-range index reports `"Invalid contact index!"` and changes nothing;
on a valid index the five fields are prompted again (first name and phone
required, empty aborts) and the record at the index is replaced wholesale
by a fresh `Contact::new`. -/
def update_contact (pb : PhoneBook)
    (index_input fn_input ln_input pn_input em_input ad_input : String) :
    PhoneBook × String :=
  match parse_usize (trim index_input) with
  | none => (pb, "Invalid contact index!")
  | some index =>
    if index < 1 ∨ index > pb.contacts.length then
      (pb, "Invalid contact index!")
    else
      let new_first_name := trim fn_input
      if new_first_name = "" then
        (pb, "First name is required. Contact update cancelled.")
      else
        let new_last_name := trim ln_input
        let new_phone_number := trim pn_input
        if new_phone_number = "" then
          (pb, "Phone number is required. Contact update cancelled.")
        else
          let new_email := trim em_input
          let new_address := trim ad_input
          let updated_contact := Contact.new new_first_name new_last_name
            new_email new_address new_phone_number
          ({ pb with contacts := pb.contacts.set (index - 1) updated_contact },
            "Contact updated successfully!")

/-- The match condition of `PhoneBook::search_contact`: the (already
lower-cased) query is a substring of the lower-cased first name, last
name, email, address, or phone number.  (The source reads the phone field
as `contact.phone`; the struct declares it `phone_number`.) -/
def contact_matches (query : String) (c : Contact) : Bool :=
  str_contains (to_lowercase c.first_name) query ||
  str_contains (to_lowercase c.last_name) query ||
  str_contains (to_lowercase c.email) query ||
  str_contains (to_lowercase c.address) query ||
  str_contains (to_lowercase c.phone_number) query

/-- The empty-collection message of `PhoneBook::print_contacts`. -/
def print_contacts_empty_msg : String := "No contacts found."

/-- `PhoneBook::search_contact`: lower-case the trimmed query, collect the
matching contacts in collection order, and report
`"No contacts found matching the search query."` when none match.  The
operation takes `&self`: it cannot modify the collection.  Returns the
matches and the feedback line (empty when the match table is printed). -/
def search_contact (pb : PhoneBook) (query_input : String) :
    List Contact × String :=
  let query := to_lowercase (trim query_input)
  let found_contacts := pb.contacts.filter (contact_matches query)
  if found_contacts = [] then
    (found_contacts, "No contacts found matching the search query.")
  else
    (found_contacts, "")

/-- One record of `PhoneBook::load_contacts_from_csv`: start from
`Contact::default()` and copy each recognized column's cell verbatim.
Note the phone cell is stored raw — this path never calls
`standardize_phone_number`. -/
def contact_from_record (header record : List String) : Contact :=
  let first_name_index := header.findIdx? (fun h => h = "first_name")
  let last_name_index := header.findIdx? (fun h => h = "last_name")
  let email_index := header.findIdx? (fun h => h = "email")
  let address_index := header.findIdx? (fun h => h = "address")
  let phone_number_index := header.findIdx? (fun h => h = "phone")
  let pick : Option Nat → String := fun idx =>
    match idx with
    | some i => record.getD i ""
    | none => ""
  { first_name := pick first_name_index
    last_name := pick last_name_index
    email := pick email_index
    address := pick address_index
    phone_number := pick phone_number_index }

/-- `PhoneBook::load_contacts_from_csv`, given the parsed header row and
data rows.  The `csv` reader is strict about field counts, so a row whose
length differs from the header's is an `Err` record: the source prints a
per-record error and skips it.  Every `Ok` record is turned into a contact
and pushed onto `self.contacts` (not the database). -/
def load_contacts_from_csv (pb : PhoneBook) (header : List String)
    (records : List (List String)) : PhoneBook :=
  { pb with contacts := pb.contacts ++
      ((records.filter (fun r => r.length = header.length)).map
        (contact_from_record header)) }

/-! ## Listing through the persistence collaborator
(`src/phone_book/operations.rs`, `list_contacts_in_order`)

The SQLite database behind diesel is out of scope for the spec; we model
it as the sequence of rows in insertion order, with `ORDER BY first_name`
realised by an insertion sort under SQLite's byte-wise (here: pointwise
character) comparison. -/

/-- The persistence collaborator: rows in insertion (rowid) order. -/
structure Db where
  rows : List Contact
deriving DecidableEq, Repr

/-- `ORDER BY first_name ASC` comparison. -/
def first_name_le (a b : Contact) : Bool :=
  if b.first_name < a.first_name then false else true

def sort_insert (le : Contact → Contact → Bool) (c : Contact) :
    List Contact → List Contact
  | [] => [c]
  | x :: xs => if le c x then c :: x :: xs else x :: sort_insert le c xs

def sort_by (le : Contact → Contact → Bool) : List Contact → List Contact
  | [] => []
  | x :: xs => sort_insert le x (sort_by le xs)

/-- `contacts::table.order(...).load(...)`: a read-only query against the
database; `""` loads in stored (insertion) order, `"asc"`/`"desc"` load
sorted by first name, anything else is the invalid-parameter branch. -/
def load_ordered (db : Db) (order : String) : Option (List Contact) :=
  if order = "asc" then some (sort_by first_name_le db.rows)
  else if order = "desc" then some (sort_by (fun a b => first_name_le b a) db.rows)
  else if order = "" then some db.rows
  else none

/-- `PhoneBook::list_contacts_in_order`: load the rows in the requested
order, overwrite the in-memory cache `self.contacts` with the result and
print it.  The operation only issues a `SELECT`, so the database comes
back unchanged; the third component is the printed sequence (empty for
the invalid-parameter branch). -/
def list_contacts_in_order (pb : PhoneBook) (db : Db) (order : String) :
    PhoneBook × Db × List Contact :=
  match load_ordered db order with
  | some cs => ({ pb with contacts := cs }, db, cs)
  | none => (pb, db, [])

/-! ## Reachable states and invariants -/

/-- The data-model invariant of claim C5 on a contact collection: every
contact has a non-empty first name and a non-empty phone number. -/
def RequiredFieldsOk (cs : List Contact) : Prop :=
  ∀ c ∈ cs, c.first_name ≠ "" ∧ c.phone_number ≠ ""

/-- States reachable from the start state by any sequence of create,
update, delete, and bulk-import operations — the operation set quantified
over by claim C5. -/
inductive Reachable : PhoneBook → Prop where
  | init : Reachable PhoneBook.default
  | create {pb} (inputs : List String) :
      Reachable pb → Reachable (create_contact_stream pb inputs).1
  | update {pb} (ii fn ln pn em ad : String) :
      Reachable pb → Reachable (update_contact pb ii fn ln pn em ad).1
  | delete {pb} (ii ci : String) :
      Reachable pb → Reachable (delete_contact pb ii ci).1
  | load_csv {pb} (header : List String) (records : List (List String)) :
      Reachable pb → Reachable (load_contacts_from_csv pb header records)

/-- States reachable by create, update, and delete only (no bulk import). -/
inductive ReachableNoBulkImport : PhoneBook → Prop where
  | init : ReachableNoBulkImport PhoneBook.default
  | create {pb} (inputs : List String) :
      ReachableNoBulkImport pb →
      ReachableNoBulkImport (create_contact_stream pb inputs).1
  | update {pb} (ii fn ln pn em ad : String) :
      ReachableNoBulkImport pb →
      ReachableNoBulkImport (update_contact pb ii fn ln pn em ad).1
  | delete {pb} (ii ci : String) :
      ReachableNoBulkImport pb →
      ReachableNoBulkImport (delete_contact pb ii ci).1

/-! ## Sample data for witnesses -/

def ada : Contact := Contact.new "Ada" "Lovelace" "ada@x.io" "12 Main St" "5551234567"

def bob : Contact := Contact.new "Bob" "Byron" "bob@x.io" "3 Oak Ave" "5557654321"

def sample_db : Db := ⟨[bob, ada]⟩

/-! ## Lemmas about phone normalization -/

lemma mem_digitsOf_isDigit {c : Char} {s : String} (h : c ∈ digitsOf s) :
    c.isDigit = true :=
  List.of_mem_filter h

lemma utf8Size_eq_one_of_isDigit (c : Char) (h : c.isDigit = true) :
    c.utf8Size = 1 := by
  simp only [Char.isDigit, Bool.and_eq_true, decide_eq_true_eq] at h
  unfold Char.utf8Size
  rw [if_pos]
  rw [UInt32.le_def, BitVec.le_def]
  have h2 := h.2
  rw [UInt32.le_def, BitVec.le_def] at h2
  simp_all
  omega

lemma standardize_eq_format (s : String) (h : (digitsOf s).length = 10) :
    standardize_phone_number s = format_digits (digitsOf s) := by
  simp [standardize_phone_number, h]

lemma standardize_eq_self (s : String) (h : (digitsOf s).length ≠ 10) :
    standardize_phone_number s = s := by
  simp [standardize_phone_number, h]

/-- Extracting the digits of the formatted string recovers exactly the ten
digits it was built from: the punctuation `(`, `)`, space and `-` are not
digits, and the three digit groups pass the filter unchanged. -/
lemma digitsOf_format_digits (ds : List Char) (hall : ∀ c ∈ ds, c.isDigit = true)
    (hlen : ds.length = 10) : digitsOf (format_digits ds) = ds := by
  have htake3 : (ds.take 3).filter Char.isDigit = ds.take 3 :=
    List.filter_eq_self.mpr (fun a ha => hall a (List.take_subset _ _ ha))
  have hmid : ((ds.drop 3).take 3).filter Char.isDigit = (ds.drop 3).take 3 :=
    List.filter_eq_self.mpr
      (fun a ha => hall a (List.drop_subset _ _ (List.take_subset _ _ ha)))
  have hlast : ((ds.drop 6).take 4).filter Char.isDigit = (ds.drop 6).take 4 :=
    List.filter_eq_self.mpr
      (fun a ha => hall a (List.drop_subset _ _ (List.take_subset _ _ ha)))
  have hp1 : ('(' : Char).isDigit = false := rfl
  have hp2 : (')' : Char).isDigit = false := rfl
  have hp3 : (' ' : Char).isDigit = false := rfl
  have hp4 : ('-' : Char).isDigit = false := rfl
  show ('(' :: ds.take 3 ++ ')' :: ' ' :: (ds.drop 3).take 3 ++
      '-' :: (ds.drop 6).take 4).filter Char.isDigit = ds
  rw [List.filter_append, List.filter_append]
  simp only [List.filter_cons, hp1, hp2, hp3, hp4, Bool.false_eq_true,
    if_false, htake3, hmid, hlast]
  have hdrop6 : (ds.drop 6).take 4 = ds.drop 6 :=
    List.take_of_length_le (by simp [hlen])
  rw [hdrop6, ← List.take_add]
  exact List.take_append_drop 6 ds

lemma standardize_idem (s : String) :
    standardize_phone_number (standardize_phone_number s) =
      standardize_phone_number s := by
  by_cases h : (digitsOf s).length = 10
  · rw [standardize_eq_format s h]
    have hd : digitsOf (format_digits (digitsOf s)) = digitsOf s :=
      digitsOf_format_digits _ (fun _ hc => mem_digitsOf_isDigit hc) h
    rw [standardize_eq_format _ (by rw [hd]; exact h), hd]
  · rw [standardize_eq_self s h, standardize_eq_self s h]

/-- Normalization never turns a non-empty string into the empty string:
the formatted branch starts with a parenthesis and the other branch is the
identity. -/
lemma standardize_ne_empty (s : String) (h : s ≠ "") :
    standardize_phone_number s ≠ "" := by
  by_cases h10 : (digitsOf s).length = 10
  · rw [standardize_eq_format s h10]
    intro hcontra
    have hdata := congrArg String.data hcontra
    simp [format_digits] at hdata
  · rw [standardize_eq_self s h10]; exact h

/-! ## Claim theorems -/

/-- C1: `standardize_phone_number` first extracts the decimal digits of
its input; when exactly 10 digits `d0 … d9` remain it returns the string
`(d0d1d2) d3d4d5-d6d7d8d9`, and otherwise it returns the input unchanged,
non-digits included.  (It is a pure Lean function of its argument, hence
deterministic and side-effect free.) -/
theorem c1_normalize_phone (s : String) :
    (∀ d0 d1 d2 d3 d4 d5 d6 d7 d8 d9 : Char,
        digitsOf s = [d0, d1, d2, d3, d4, d5, d6, d7, d8, d9] →
        standardize_phone_number s =
          String.mk ['(', d0, d1, d2, ')', ' ', d3, d4, d5, '-',
            d6, d7, d8, d9]) ∧
    ((digitsOf s).length ≠ 10 → standardize_phone_number s = s) := by
  refine ⟨?_, standardize_eq_self s⟩
  intro d0 d1 d2 d3 d4 d5 d6 d7 d8 d9 h
  rw [standardize_eq_format s (by rw [h]; rfl), h]
  rfl

/-- C1 witness: a 10-digit input with punctuation is reformatted, and an
input whose digit count is not 10 is returned verbatim. -/
theorem c1_normalize_phone_witness :
    standardize_phone_number "555-123-4567" = "(555) 123-4567" ∧
    standardize_phone_number "+1 (555) 123-4567" = "+1 (555) 123-4567" := by
  constructor
  · rw [(c1_normalize_phone "555-123-4567").1 '5' '5' '5' '1' '2' '3' '4' '5'
      '6' '7' (by decide)]
  · exact (c1_normalize_phone "+1 (555) 123-4567").2 (by decide)

/-- C10: `standardize_phone_number` is total and cannot panic: every
character kept by the digit filter is an ASCII decimal digit occupying a
single UTF-8 byte, so when 10 digits remain the byte slices `0..=2`,
`3..=5`, `6..=9` of the digit string are in bounds (its byte length is its
character length, 10) and every slice boundary is a character boundary;
moreover the function is idempotent. -/
theorem c10_normalize_safe_idempotent (s : String) :
    (digitsOf s).all (fun c => c.isDigit && c.utf8Size == 1) = true ∧
    standardize_phone_number (standardize_phone_number s) =
      standardize_phone_number s := by
  constructor
  · rw [List.all_eq_true]
    intro c hc
    have hd := mem_digitsOf_isDigit hc
    simp [hd, utf8Size_eq_one_of_isDigit c hd]
  · exact standardize_idem s

/-- C2: requesting an ascending or descending list view never touches the
stored contact sequence: the database comes back from the call unchanged,
and an original-order list issued right after the sorted view prints the
same sequence as an original-order list issued before it.  (The view the
sorted listing prints is a derived copy; only the transient in-memory
cache `self.contacts` is overwritten with it.) -/
theorem c2_sorted_views_frame (pb : PhoneBook) (db : Db) (order : String)
    (h : order = "asc" ∨ order = "desc") :
    (list_contacts_in_order pb db order).2.1 = db ∧
    (list_contacts_in_order (list_contacts_in_order pb db order).1
        (list_contacts_in_order pb db order).2.1 "").2.2 =
      (list_contacts_in_order pb db "").2.2 := by
  rcases h with h | h <;> subst h <;> exact ⟨rfl, rfl⟩

/-- C2 witness: the frame property at a concrete two-row database and the
ascending view. -/
theorem c2_sorted_views_frame_witness :
    (list_contacts_in_order PhoneBook.default sample_db "asc").2.1 = sample_db ∧
    (list_contacts_in_order (list_contacts_in_order PhoneBook.default sample_db "asc").1
        (list_contacts_in_order PhoneBook.default sample_db "asc").2.1 "").2.2 =
      (list_contacts_in_order PhoneBook.default sample_db "").2.2 :=
  c2_sorted_views_frame PhoneBook.default sample_db "asc" (Or.inl rfl)

/-- C6: the Create operation with an empty (after trimming) first name or
phone number aborts with the corresponding cancellation message and leaves
the collection unchanged; with both required fields non-empty it appends
exactly one contact built from the entered values (phone normalized by
`Contact.new`) at the end of the collection, so the created contact is the
last element of a subsequent original-order view of the collection. -/
theorem c6_create_contact (pb : PhoneBook) (fn ln pn em ad : String)
    (rest : List String) :
    (trim fn = "" →
      (create_contact_stream pb (fn :: ln :: pn :: em :: ad :: rest)).1.contacts =
          pb.contacts ∧
      (create_contact_stream pb (fn :: ln :: pn :: em :: ad :: rest)).1.msg =
        "First name is required. Contact creation cancelled.") ∧
    (trim fn ≠ "" → trim pn = "" →
      (create_contact_stream pb (fn :: ln :: pn :: em :: ad :: rest)).1.contacts =
          pb.contacts ∧
      (create_contact_stream pb (fn :: ln :: pn :: em :: ad :: rest)).1.msg =
        "Phone number is required. Contact creation cancelled.") ∧
    (trim fn ≠ "" → trim pn ≠ "" →
      (create_contact_stream pb (fn :: ln :: pn :: em :: ad :: rest)).1.contacts =
          pb.contacts ++
            [Contact.new (trim fn) (trim ln) (trim em) (trim ad) (trim pn)] ∧
      (create_contact_stream pb (fn :: ln :: pn :: em :: ad :: rest)).1.contacts.getLast? =
        some (Contact.new (trim fn) (trim ln) (trim em) (trim ad) (trim pn)) ∧
      (create_contact_stream pb (fn :: ln :: pn :: em :: ad :: rest)).1.msg =
        "Contact created successfully!") := by
  refine ⟨?_, ?_, ?_⟩
  · intro h1
    simp [create_contact_stream, next_input, h1]
  · intro h1 h2
    simp [create_contact_stream, next_input, h1, h2]
  · intro h1 h2
    simp [create_contact_stream, next_input, h1, h2, add_contact]

/-- C6 witness: creating a contact from concrete entered values appends it
with the values as entered (phone normalized). -/
theorem c6_create_contact_witness :
    (create_contact_stream PhoneBook.default
        ["Ada", "Lovelace", "5551234567", "ada@x.io", "12 Main St"]).1.contacts =
      PhoneBook.default.contacts ++
        [Contact.new (trim "Ada") (trim "Lovelace") (trim "ada@x.io")
          (trim "12 Main St") (trim "5551234567")] :=
  ((c6_create_contact PhoneBook.default "Ada" "Lovelace" "5551234567" "ada@x.io"
    "12 Main St" []).2.2 (by decide) (by decide)).1

/-- C7: the Delete operation rejects a malformed index, or one outside
`1..=length`, with the invalid-index message and no change; on a valid
index, answering exactly `"y"` removes exactly the contact at that
position (the remaining contacts keep their order), and any other answer
cancels with no change. -/
theorem c7_delete_contact (pb : PhoneBook) (index_input confirm_input : String) :
    (parse_usize (trim index_input) = none →
      delete_contact pb index_input confirm_input =
        (pb, "Invalid contact index!")) ∧
    (∀ index, parse_usize (trim index_input) = some index →
      index < 1 ∨ index > pb.contacts.length →
      delete_contact pb index_input confirm_input =
        (pb, "Invalid contact index!")) ∧
    (∀ index, parse_usize (trim index_input) = some index →
      1 ≤ index → index ≤ pb.contacts.length →
      trim confirm_input = "y" →
      delete_contact pb index_input confirm_input =
        ({ pb with contacts :=
            pb.contacts.take (index - 1) ++ pb.contacts.drop index },
          "Contact at index " ++ toString index ++ " deleted successfully.")) ∧
    (∀ index, parse_usize (trim index_input) = some index →
      1 ≤ index → index ≤ pb.contacts.length →
      trim confirm_input ≠ "y" →
      delete_contact pb index_input confirm_input =
        (pb, "Contact deletion cancelled.")) := by
  refine ⟨?_, ?_, ?_, ?_⟩
  · intro h
    simp [delete_contact, h]
  · intro index hp hrange
    simp only [delete_contact, hp]
    rw [if_pos hrange]
  · intro index hp h1 h2 hy
    have hrange : ¬(index < 1 ∨ index > pb.contacts.length) := by omega
    have hidx : index - 1 + 1 = index := by omega
    simp only [delete_contact, hp]
    rw [if_neg hrange, if_pos hy, List.eraseIdx_eq_take_drop_succ, hidx]
  · intro index hp h1 h2 hn
    have hrange : ¬(index < 1 ∨ index > pb.contacts.length) := by omega
    simp only [delete_contact, hp]
    rw [if_neg hrange, if_neg hn]

/-- C7 witness: deleting index 1 of a two-contact book with confirmation
`"y"` removes exactly the first contact. -/
theorem c7_delete_contact_witness :
    delete_contact ⟨[ada, bob], ""⟩ "1" "y" =
      (⟨[bob], ""⟩, "Contact at index 1 deleted successfully.") := by
  have h := (c7_delete_contact ⟨[ada, bob], ""⟩ "1" "y").2.2.1 1 (by decide)
    (by decide) (by decide) (by decide)
  rw [h]
  rfl

/-- C8: the Update operation rejects a malformed or out-of-range index
with an error message and no change; an empty (after trimming) new first
name or phone number aborts with a cancellation message and no change; on
a valid index with both required fields non-empty it replaces the entire
record at that position with the five newly entered fields (phone
normalized by `Contact.new`) and leaves every other position unchanged. -/
theorem c8_update_contact (pb : PhoneBook)
    (ii fn ln pn em ad : String) :
    (parse_usize (trim ii) = none →
      update_contact pb ii fn ln pn em ad = (pb, "Invalid contact index!")) ∧
    (∀ index, parse_usize (trim ii) = some index →
      index < 1 ∨ index > pb.contacts.length →
      update_contact pb ii fn ln pn em ad = (pb, "Invalid contact index!")) ∧
    (∀ index, parse_usize (trim ii) = some index →
      1 ≤ index → index ≤ pb.contacts.length → trim fn = "" →
      update_contact pb ii fn ln pn em ad =
        (pb, "First name is required. Contact update cancelled.")) ∧
    (∀ index, parse_usize (trim ii) = some index →
      1 ≤ index → index ≤ pb.contacts.length → trim fn ≠ "" → trim pn = "" →
      update_contact pb ii fn ln pn em ad =
        (pb, "Phone number is required. Contact update cancelled.")) ∧
    (∀ index, parse_usize (trim ii) = some index →
      1 ≤ index → index ≤ pb.contacts.length → trim fn ≠ "" → trim pn ≠ "" →
      (update_contact pb ii fn ln pn em ad).1.contacts =
          pb.contacts.set (index - 1)
            (Contact.new (trim fn) (trim ln) (trim em) (trim ad) (trim pn)) ∧
      (update_contact pb ii fn ln pn em ad).1.contacts[index - 1]? =
          some (Contact.new (trim fn) (trim ln) (trim em) (trim ad) (trim pn)) ∧
      (∀ j, j ≠ index - 1 →
        (update_contact pb ii fn ln pn em ad).1.contacts[j]? =
          pb.contacts[j]?) ∧
      (update_contact pb ii fn ln pn em ad).2 =
        "Contact updated successfully!") := by
  refine ⟨?_, ?_, ?_, ?_, ?_⟩
  · intro h
    simp [update_contact, h]
  · intro index hp hrange
    simp only [update_contact, hp]
    rw [if_pos hrange]
  · intro index hp h1 h2 hfn
    have hrange : ¬(index < 1 ∨ index > pb.contacts.length) := by omega
    simp only [update_contact, hp]
    rw [if_neg hrange, if_pos hfn]
  · intro index hp h1 h2 hfn hpn
    have hrange : ¬(index < 1 ∨ index > pb.contacts.length) := by omega
    simp only [update_contact, hp]
    rw [if_neg hrange, if_neg hfn, if_pos hpn]
  · intro index hp h1 h2 hfn hpn
    have hrange : ¬(index < 1 ∨ index > pb.contacts.length) := by omega
    have hset : (update_contact pb ii fn ln pn em ad).1.contacts =
        pb.contacts.set (index - 1)
          (Contact.new (trim fn) (trim ln) (trim em) (trim ad) (trim pn)) := by
      simp only [update_contact, hp]
      rw [if_neg hrange, if_neg hfn, if_neg hpn]
    refine ⟨hset, ?_, ?_, ?_⟩
    · rw [hset]
      exact List.getElem?_set_self (by omega)
    · intro j hj
      rw [hset]
      exact List.getElem?_set_ne (fun hc => hj hc.symm)
    · simp only [update_contact, hp]
      rw [if_neg hrange, if_neg hfn, if_neg hpn]

/-- C8 witness: updating index 2 of a two-contact book replaces exactly
the second record with the newly entered fields. -/
theorem c8_update_contact_witness :
    (update_contact ⟨[ada, bob], ""⟩ "2" "Grace" "Hopper" "5550000000"
        "g@x.io" "9 Pier Rd").1.contacts =
      [ada, bob].set 1 (Contact.new (trim "Grace") (trim "Hopper")
        (trim "g@x.io") (trim "9 Pier Rd") (trim "5550000000")) :=
  ((c8_update_contact ⟨[ada, bob], ""⟩ "2" "Grace" "Hopper" "5550000000"
    "g@x.io" "9 Pier Rd").2.2.2.2 2 (by decide) (by decide) (by decide)
    (by decide) (by decide)).1

/-- C9: the Fuzzy Query operation returns exactly the contacts whose
lower-cased first name, last name, email, address or phone number contains
the lower-cased (trimmed) query as a substring, in collection order (it is
the in-order filter of the collection, and the operation takes the
collection by shared reference, so it cannot modify it); an empty result
is reported with a no-match message that differs from the empty-collection
message of the list views. -/
theorem c9_search_contact (pb : PhoneBook) (query_input : String) :
    (search_contact pb query_input).1 =
      pb.contacts.filter (contact_matches (to_lowercase (trim query_input))) ∧
    ((search_contact pb query_input).1 = [] →
      (search_contact pb query_input).2 =
        "No contacts found matching the search query.") ∧
    "No contacts found matching the search query." ≠ print_contacts_empty_msg := by
  have hfst : (search_contact pb query_input).1 =
      pb.contacts.filter (contact_matches (to_lowercase (trim query_input))) := by
    unfold search_contact
    dsimp only
    split <;> rfl
  refine ⟨hfst, ?_, by decide⟩
  intro h
  rw [hfst] at h
  unfold search_contact
  dsimp only
  rw [if_pos h]

/-- C9 witness: a query matching one of two contacts returns exactly that
contact, and a query with no match on an empty book yields the no-match
message. -/
theorem c9_search_contact_witness :
    (search_contact ⟨[ada, bob], ""⟩ "ADA").1 = [ada] ∧
    (search_contact ⟨[], ""⟩ "q").2 =
      "No contacts found matching the search query." := by
  refine ⟨?_, (c9_search_contact ⟨[], ""⟩ "q").2.1 (by decide)⟩
  rw [(c9_search_contact ⟨[ada, bob], ""⟩ "ADA").1]
  decide

/-- C3 counterexample: importing the header `first_name,phone` with the
single row `Ada,5551234567` stores the phone cell verbatim as
`"5551234567"`, not as the normalized `"(555) 123-4567"` the claim
demands, even though `standardize_phone_number` would have produced the
claimed value — the import path never invokes it. -/
theorem c3_import_counterexample :
    (load_contacts_from_csv PhoneBook.default ["first_name", "phone"]
        [["Ada", "5551234567"]]).contacts.map Contact.phone_number =
      ["5551234567"] ∧
    ("5551234567" : String) ≠ "(555) 123-4567" ∧
    standardize_phone_number "5551234567" = "(555) 123-4567" := by
  decide

/-- C3 amended: importing a CSV whose header is `first_name,phone` with
the single row `Ada,5551234567` adds exactly one contact whose first name
is `"Ada"` and whose phone number is the raw string `"5551234567"` (that
code path copies the cell verbatim and performs no normalization), with
empty last name, email, and address. -/
theorem c3_import_amended (pb : PhoneBook) :
    (load_contacts_from_csv pb ["first_name", "phone"]
        [["Ada", "5551234567"]]).contacts =
      pb.contacts ++ [Contact.mk "Ada" "" "" "" "5551234567"] ∧
    (load_contacts_from_csv pb ["first_name", "phone"]
        [["Ada", "5551234567"]]).msg = pb.msg :=
  ⟨rfl, rfl⟩

/-- C4 counterexample: with `"E"` entered at the prompt and a further line
`"n"` still pending, the loop iteration terminates anyway — no exit
confirmation is ever read (the pending `"n"` is left unconsumed), so an
answer other than `"y"` does not keep the loop alive as the claim
requires. -/
theorem c4_exit_counterexample :
    start_step PhoneBook.default ["E", "n"] =
      StepResult.exited ⟨[], "Last command: E"⟩ ["n"] := by
  decide

/-- C4 amended: one iteration of the command loop terminates exactly when
the trimmed, upper-cased command line equals `"E"`; the `break` happens
immediately, with no confirmation prompt, and every other command line
returns to the prompt (the loop continues). -/
theorem c4_exit_amended (pb : PhoneBook) (inputs : List String) :
    (to_uppercase (next_input inputs).1 = "E" →
      start_step pb inputs =
        StepResult.exited { pb with msg := "Last command: E" }
          (next_input inputs).2) ∧
    (to_uppercase (next_input inputs).1 ≠ "E" →
      ∃ pb2 rest2, start_step pb inputs = StepResult.next pb2 rest2) := by
  constructor
  · intro h
    simp [start_step, h]
  · intro h
    simp only [start_step]
    split_ifs with h1 h2 h3 h4 h5 h6 h7 h8 <;>
      exact ⟨_, _, rfl⟩

/-- C4 amended witness: a lower-case `e` command exits at once with no
further input consumed. -/
theorem c4_exit_amended_witness :
    start_step PhoneBook.default ["e"] =
      StepResult.exited { PhoneBook.default with msg := "Last command: E" } [] :=
  (c4_exit_amended PhoneBook.default ["e"]).1 (by decide)

/-- C5 counterexample: bulk import performs no validation, so a reachable
state (one import of a row whose columns match nothing) contains a contact
whose first name and phone number are both empty. -/
theorem c5_invariant_counterexample :
    Reachable (load_contacts_from_csv PhoneBook.default ["x"] [["y"]]) ∧
    ¬ RequiredFieldsOk
        (load_contacts_from_csv PhoneBook.default ["x"] [["y"]]).contacts := by
  refine ⟨Reachable.load_csv ["x"] [["y"]] Reachable.init, ?_⟩
  intro hinv
  have h := hinv Contact.default (by decide)
  exact h.1 rfl

/-- Create preserves the C5 invariant: it either leaves the collection
unchanged (a required field was empty) or appends a contact whose first
name is the non-empty trimmed input and whose phone number is the
normalization of a non-empty trimmed input. -/
lemma create_preserves_required_fields (pb : PhoneBook) (inputs : List String)
    (h : RequiredFieldsOk pb.contacts) :
    RequiredFieldsOk (create_contact_stream pb inputs).1.contacts := by
  by_cases h1 : (next_input inputs).1 = ""
  · simp only [create_contact_stream]
    rw [if_pos h1]
    exact h
  · by_cases h2 :
        (next_input (next_input (next_input inputs).2).2).1 = ""
    · simp only [create_contact_stream]
      rw [if_neg h1, if_pos h2]
      exact h
    · simp only [create_contact_stream]
      rw [if_neg h1, if_neg h2]
      intro c hc
      rcases List.mem_append.mp hc with hmem | hmem
      · exact h c hmem
      · rcases List.mem_singleton.mp hmem with rfl
        exact ⟨h1, standardize_ne_empty _ h2⟩

/-- Update preserves the C5 invariant: it either leaves the collection
unchanged or overwrites one position with a contact whose required fields
are non-empty by the same argument as for create. -/
lemma update_preserves_required_fields (pb : PhoneBook)
    (ii fn ln pn em ad : String) (h : RequiredFieldsOk pb.contacts) :
    RequiredFieldsOk (update_contact pb ii fn ln pn em ad).1.contacts := by
  rcases hp : parse_usize (trim ii) with _ | index
  · simp only [update_contact, hp]
    exact h
  · simp only [update_contact, hp]
    by_cases hrange : index < 1 ∨ index > pb.contacts.length
    · rw [if_pos hrange]
      exact h
    · rw [if_neg hrange]
      by_cases hfn : trim fn = ""
      · rw [if_pos hfn]
        exact h
      · rw [if_neg hfn]
        by_cases hpn : trim pn = ""
        · rw [if_pos hpn]
          exact h
        · rw [if_neg hpn]
          intro c hc
          rcases List.mem_or_eq_of_mem_set hc with hmem | rfl
          · exact h c hmem
          · exact ⟨hfn, standardize_ne_empty _ hpn⟩

/-- Delete preserves the C5 invariant: the resulting collection is either
unchanged or a sublist of the original. -/
lemma delete_preserves_required_fields (pb : PhoneBook) (ii ci : String)
    (h : RequiredFieldsOk pb.contacts) :
    RequiredFieldsOk (delete_contact pb ii ci).1.contacts := by
  rcases hp : parse_usize (trim ii) with _ | index
  · simp only [delete_contact, hp]
    exact h
  · simp only [delete_contact, hp]
    by_cases hrange : index < 1 ∨ index > pb.contacts.length
    · rw [if_pos hrange]
      exact h
    · rw [if_neg hrange]
      by_cases hy : trim ci = "y"
      · rw [if_pos hy]
        intro c hc
        exact h c (List.eraseIdx_subset _ _ hc)
      · rw [if_neg hy]
        exact h

/-- C5 amended: for every state reachable by create, update, and delete,
every contact has a non-empty first name and phone number; bulk import is
excluded because it performs no validation (see the counterexample). -/
theorem c5_invariant_amended (pb : PhoneBook) (h : ReachableNoBulkImport pb) :
    RequiredFieldsOk pb.contacts := by
  induction h with
  | init => intro c hc; cases hc
  | create inputs _ ih => exact create_preserves_required_fields _ inputs ih
  | update ii fn ln pn em ad _ ih =>
      exact update_preserves_required_fields _ ii fn ln pn em ad ih
  | delete ii ci _ ih => exact delete_preserves_required_fields _ ii ci ih

/-- C5 amended witness: after one concrete create from the start state,
the invariant holds. -/
theorem c5_invariant_amended_witness :
    RequiredFieldsOk
      (create_contact_stream PhoneBook.default
        ["Ada", "Lovelace", "5551234567", "ada@x.io", "12 Main St"]).1.contacts :=
  c5_invariant_amended _
    (ReachableNoBulkImport.create _ ReachableNoBulkImport.init)

end PhoneBookSpec
